import Mathlib

/-!
Verification of the I2C device-handle core of rust-i2cdev (src/core.rs).

The core is a shallow embedding of `I2CDevice` and its operations.  The
`ffi` module and the standard-library file primitives are external
collaborators of the core (the spec treats them as a primitive layer
returning success or a POSIX-style error), so they are modelled as
abstract oracles: a record `Ffi` of the ioctl-level primitives and a
record `Fs` of the file-resource primitives, both returning
`Except`-style results.  Each embedded operation additionally records
the list of primitive calls it performs (`Trace`), so that "exactly one
kernel call, no retry" is a provable statement rather than a typing
convention.  Operations taking `&mut self` (and, for uniformity, those
taking `&self`, which Rust's borrow rules forbid from mutating) are
state-passing: they return the resulting `I2CDevice` next to the result.
-/

namespace I2cdev

/-- A raw Unix file descriptor (`RawFd`). -/
abbrev RawFd := Int

/-- An errno-style error surfaced by the nix crate (`nix::Error`).
Only its identity matters to the core, which never inspects it. -/
structure NixError where
  errno : Int

/-- An error from the standard I/O layer (`std::io::Error`).
Only its identity matters to the core, which never inspects it. -/
structure IoError where
  code : Int

/-- An open file resource (`std::fs::File`); the core only ever uses its
raw file descriptor. -/
structure File where
  fd : RawFd

/-- Oracle for the `ffi` module: the ioctl-level primitives the core
calls.  These are external collaborators (outside src/core.rs), left
abstract: each is an arbitrary function from its arguments to a result
or a `NixError`. -/
structure Ffi where
  i2c_set_slave_address : RawFd → Nat → Except NixError Unit
  i2c_smbus_write_quick : RawFd → Bool → Except NixError Unit
  i2c_smbus_read_byte : RawFd → Except NixError Nat
  i2c_smbus_write_byte : RawFd → Nat → Except NixError Unit
  i2c_smbus_read_byte_data : RawFd → Nat → Except NixError Nat
  i2c_smbus_write_byte_data : RawFd → Nat → Nat → Except NixError Unit
  i2c_smbus_read_word_data : RawFd → Nat → Except NixError Nat
  i2c_smbus_write_word_data : RawFd → Nat → Nat → Except NixError Unit
  i2c_smbus_process_call : RawFd → Nat → Nat → Except NixError Nat
  i2c_smbus_read_block_data : RawFd → Nat → Except NixError (List Nat)
  i2c_smbus_write_block_data : RawFd → Nat → List Nat → Except NixError Unit
  i2c_smbus_write_i2c_block_data : RawFd → Nat → List Nat → Except NixError Unit

/-- Oracle for the file-resource primitives the core calls
(`OpenOptions::open` with read+write, and `File`'s read, write, flush).
`file_read` and `file_write` return the count of bytes transferred. -/
structure Fs where
  open_read_write : String → Except IoError File
  file_read : File → List Nat → Except IoError Nat
  file_write : File → List Nat → Except IoError Nat
  file_flush : File → Except IoError Unit

/-- One primitive call made by the core, recorded for call-counting. -/
inductive FfiCall where
  | set_slave_address : RawFd → Nat → FfiCall
  | write_quick : RawFd → Bool → FfiCall
  | read_byte : RawFd → FfiCall
  | write_byte : RawFd → Nat → FfiCall
  | read_byte_data : RawFd → Nat → FfiCall
  | write_byte_data : RawFd → Nat → Nat → FfiCall
  | read_word_data : RawFd → Nat → FfiCall
  | write_word_data : RawFd → Nat → Nat → FfiCall
  | process_call : RawFd → Nat → Nat → FfiCall
  | read_block_data : RawFd → Nat → FfiCall
  | write_block_data : RawFd → Nat → List Nat → FfiCall
  | write_i2c_block_data : RawFd → Nat → List Nat → FfiCall
  | file_open : String → FfiCall
  | file_read : RawFd → Nat → FfiCall
  | file_write : RawFd → List Nat → FfiCall
  | file_flush : RawFd → FfiCall

/-- The sequence of primitive calls an operation performed. -/
abbrev Trace := List FfiCall

/-- The device handle (`pub struct I2CDevice`): an owned file resource
and the currently recorded slave address (a `u16` in the source). -/
structure I2CDevice where
  devfile : File
  slave_address : Nat

/-- The construction error (`pub enum I2CDeviceOpenError`): an I/O-layer
open failure or a kernel (nix) rejection, as distinct tagged variants. -/
inductive I2CDeviceOpenError where
  | IOError : IoError → I2CDeviceOpenError
  | NixError : NixError → I2CDeviceOpenError

/-- `impl AsRawFd for I2CDevice`: the raw fd of the owned file. -/
def I2CDevice.as_raw_fd (d : I2CDevice) : RawFd :=
  d.devfile.fd

/-- `I2CDevice::set_slave_address` (src/core.rs lines 61-65): issue the
address-bind ioctl via `ffi::i2c_set_slave_address`; on success record
the new address in `self.slave_address`, on failure `try!` returns the
nix error before the field assignment, leaving the handle unchanged. -/
def I2CDevice.set_slave_address (env : Ffi) (d : I2CDevice) (slave_address : Nat) :
    Trace × I2CDevice × Except NixError Unit :=
  match env.i2c_set_slave_address d.as_raw_fd slave_address with
  | Except.error e =>
    ([FfiCall.set_slave_address d.as_raw_fd slave_address], d, Except.error e)
  | Except.ok _ =>
    ([FfiCall.set_slave_address d.as_raw_fd slave_address],
      { d with slave_address := slave_address }, Except.ok ())

/-- `I2CDevice::new` (src/core.rs lines 33-48): open the path read+write
(failure becomes `I2CDeviceOpenError::IOError`), build the handle with a
placeholder address 0, then bind the requested slave address (failure
becomes `I2CDeviceOpenError::NixError`). -/
def I2CDevice.new (fs : Fs) (env : Ffi) (path : String) (slave_address : Nat) :
    Trace × Except I2CDeviceOpenError I2CDevice :=
  match fs.open_read_write path with
  | Except.error e =>
    ([FfiCall.file_open path], Except.error (I2CDeviceOpenError.IOError e))
  | Except.ok file =>
    let device : I2CDevice := { devfile := file, slave_address := 0 }
    match I2CDevice.set_slave_address env device slave_address with
    | (t, _, Except.error e) =>
      (FfiCall.file_open path :: t, Except.error (I2CDeviceOpenError.NixError e))
    | (t, d, Except.ok _) =>
      (FfiCall.file_open path :: t, Except.ok d)

/-- `impl Read for I2CDevice` (src/core.rs lines 75-79): delegate to
`self.devfile.read(buf)`. -/
def I2CDevice.read (fs : Fs) (d : I2CDevice) (buf : List Nat) :
    Trace × I2CDevice × Except IoError Nat :=
  ([FfiCall.file_read d.as_raw_fd buf.length], d, fs.file_read d.devfile buf)

/-- `impl Write for I2CDevice`, `write` (src/core.rs lines 81-84):
delegate to `self.devfile.write(buf)`. -/
def I2CDevice.write (fs : Fs) (d : I2CDevice) (buf : List Nat) :
    Trace × I2CDevice × Except IoError Nat :=
  ([FfiCall.file_write d.as_raw_fd buf], d, fs.file_write d.devfile buf)

/-- `impl Write for I2CDevice`, `flush` (src/core.rs lines 85-87):
delegate to `self.devfile.flush()`. -/
def I2CDevice.flush (fs : Fs) (d : I2CDevice) :
    Trace × I2CDevice × Except IoError Unit :=
  ([FfiCall.file_flush d.as_raw_fd], d, fs.file_flush d.devfile)

/-- `smbus_write_quick` (src/core.rs lines 93-95): one call to
`ffi::i2c_smbus_write_quick`. -/
def I2CDevice.smbus_write_quick (env : Ffi) (d : I2CDevice) (bit : Bool) :
    Trace × I2CDevice × Except NixError Unit :=
  ([FfiCall.write_quick d.as_raw_fd bit], d, env.i2c_smbus_write_quick d.as_raw_fd bit)

/-- `smbus_read_byte` (src/core.rs lines 102-104): one call to
`ffi::i2c_smbus_read_byte`. -/
def I2CDevice.smbus_read_byte (env : Ffi) (d : I2CDevice) :
    Trace × I2CDevice × Except NixError Nat :=
  ([FfiCall.read_byte d.as_raw_fd], d, env.i2c_smbus_read_byte d.as_raw_fd)

/-- `smbus_write_byte` (src/core.rs lines 110-112): one call to
`ffi::i2c_smbus_write_byte`. -/
def I2CDevice.smbus_write_byte (env : Ffi) (d : I2CDevice) (value : Nat) :
    Trace × I2CDevice × Except NixError Unit :=
  ([FfiCall.write_byte d.as_raw_fd value], d, env.i2c_smbus_write_byte d.as_raw_fd value)

/-- `smbus_read_byte_data` (src/core.rs lines 117-119): one call to
`ffi::i2c_smbus_read_byte_data`. -/
def I2CDevice.smbus_read_byte_data (env : Ffi) (d : I2CDevice) (register : Nat) :
    Trace × I2CDevice × Except NixError Nat :=
  ([FfiCall.read_byte_data d.as_raw_fd register], d,
    env.i2c_smbus_read_byte_data d.as_raw_fd register)

/-- `smbus_write_byte_data` (src/core.rs lines 124-126): one call to
`ffi::i2c_smbus_write_byte_data`. -/
def I2CDevice.smbus_write_byte_data (env : Ffi) (d : I2CDevice) (register : Nat) (value : Nat) :
    Trace × I2CDevice × Except NixError Unit :=
  ([FfiCall.write_byte_data d.as_raw_fd register value], d,
    env.i2c_smbus_write_byte_data d.as_raw_fd register value)

/-- `smbus_read_word_data` (src/core.rs lines 129-131): one call to
`ffi::i2c_smbus_read_word_data`. -/
def I2CDevice.smbus_read_word_data (env : Ffi) (d : I2CDevice) (register : Nat) :
    Trace × I2CDevice × Except NixError Nat :=
  ([FfiCall.read_word_data d.as_raw_fd register], d,
    env.i2c_smbus_read_word_data d.as_raw_fd register)

/-- `smbus_write_word_data` (src/core.rs lines 134-136): one call to
`ffi::i2c_smbus_write_word_data`. -/
def I2CDevice.smbus_write_word_data (env : Ffi) (d : I2CDevice) (register : Nat) (value : Nat) :
    Trace × I2CDevice × Except NixError Unit :=
  ([FfiCall.write_word_data d.as_raw_fd register value], d,
    env.i2c_smbus_write_word_data d.as_raw_fd register value)

/-- `smbus_process_word` (src/core.rs lines 139-141): one call to
`ffi::i2c_smbus_process_call`. -/
def I2CDevice.smbus_process_word (env : Ffi) (d : I2CDevice) (register : Nat) (value : Nat) :
    Trace × I2CDevice × Except NixError Nat :=
  ([FfiCall.process_call d.as_raw_fd register value], d,
    env.i2c_smbus_process_call d.as_raw_fd register value)

/-- `smbus_read_block_data` (src/core.rs lines 148-150): one call to
`ffi::i2c_smbus_read_block_data`, its vector returned as is. -/
def I2CDevice.smbus_read_block_data (env : Ffi) (d : I2CDevice) (register : Nat) :
    Trace × I2CDevice × Except NixError (List Nat) :=
  ([FfiCall.read_block_data d.as_raw_fd register], d,
    env.i2c_smbus_read_block_data d.as_raw_fd register)

/-- `smbus_write_block_data` (src/core.rs lines 157-159): one call to
`ffi::i2c_smbus_write_block_data`, the slice forwarded as is. -/
def I2CDevice.smbus_write_block_data (env : Ffi) (d : I2CDevice) (register : Nat)
    (values : List Nat) :
    Trace × I2CDevice × Except NixError Unit :=
  ([FfiCall.write_block_data d.as_raw_fd register values], d,
    env.i2c_smbus_write_block_data d.as_raw_fd register values)

/-- `smbus_process_block` (src/core.rs lines 163-165): one call to
`ffi::i2c_smbus_write_i2c_block_data` (a block write; no read phase). -/
def I2CDevice.smbus_process_block (env : Ffi) (d : I2CDevice) (register : Nat)
    (values : List Nat) :
    Trace × I2CDevice × Except NixError Unit :=
  ([FfiCall.write_i2c_block_data d.as_raw_fd register values], d,
    env.i2c_smbus_write_i2c_block_data d.as_raw_fd register values)

/-! Concrete oracles for witnesses: an always-succeeding environment, an
environment whose open fails, and one whose kernel primitives fail. -/

/-- A file system where opening any path yields fd 3 and every file
primitive succeeds (reads and writes report the full buffer length). -/
def okFs : Fs :=
  { open_read_write := fun _ => Except.ok { fd := 3 }
    file_read := fun _ buf => Except.ok buf.length
    file_write := fun _ buf => Except.ok buf.length
    file_flush := fun _ => Except.ok () }

/-- A file system where opening any path fails with errno-style code 2
(ENOENT). -/
def noentFs : Fs :=
  { open_read_write := fun _ => Except.error { code := 2 }
    file_read := fun _ buf => Except.ok buf.length
    file_write := fun _ buf => Except.ok buf.length
    file_flush := fun _ => Except.ok () }

/-- An ioctl layer where every primitive succeeds; reads report zeroed
data and block reads report the three bytes [1, 2, 3]. -/
def okFfi : Ffi :=
  { i2c_set_slave_address := fun _ _ => Except.ok ()
    i2c_smbus_write_quick := fun _ _ => Except.ok ()
    i2c_smbus_read_byte := fun _ => Except.ok 0
    i2c_smbus_write_byte := fun _ _ => Except.ok ()
    i2c_smbus_read_byte_data := fun _ _ => Except.ok 0
    i2c_smbus_write_byte_data := fun _ _ _ => Except.ok ()
    i2c_smbus_read_word_data := fun _ _ => Except.ok 0
    i2c_smbus_write_word_data := fun _ _ _ => Except.ok ()
    i2c_smbus_process_call := fun _ _ _ => Except.ok 0
    i2c_smbus_read_block_data := fun _ _ => Except.ok [1, 2, 3]
    i2c_smbus_write_block_data := fun _ _ _ => Except.ok ()
    i2c_smbus_write_i2c_block_data := fun _ _ _ => Except.ok () }

/-- An ioctl layer where every primitive fails with errno 5 (EIO),
except address binding which fails with errno 22 (EINVAL). -/
def failFfi : Ffi :=
  { i2c_set_slave_address := fun _ _ => Except.error { errno := 22 }
    i2c_smbus_write_quick := fun _ _ => Except.error { errno := 5 }
    i2c_smbus_read_byte := fun _ => Except.error { errno := 5 }
    i2c_smbus_write_byte := fun _ _ => Except.error { errno := 5 }
    i2c_smbus_read_byte_data := fun _ _ => Except.error { errno := 5 }
    i2c_smbus_write_byte_data := fun _ _ _ => Except.error { errno := 5 }
    i2c_smbus_read_word_data := fun _ _ => Except.error { errno := 5 }
    i2c_smbus_write_word_data := fun _ _ _ => Except.error { errno := 5 }
    i2c_smbus_process_call := fun _ _ _ => Except.error { errno := 5 }
    i2c_smbus_read_block_data := fun _ _ => Except.error { errno := 5 }
    i2c_smbus_write_block_data := fun _ _ _ => Except.error { errno := 5 }
    i2c_smbus_write_i2c_block_data := fun _ _ _ => Except.error { errno := 5 } }

/-- A concrete device handle on fd 3 bound to address 0x50. -/
def dev50 : I2CDevice :=
  { devfile := { fd := 3 }, slave_address := 80 }

/-- C1: for every path and slave address such that opening the path for
read/write succeeds and the kernel address-bind call accepts the
address, `I2CDevice::new` succeeds and the returned handle's recorded
`slave_address` equals the address passed in (and it owns the opened
file). -/
theorem new_ok_records_address (fs : Fs) (env : Ffi) (path : String)
    (addr : Nat) (file : File)
    (hopen : fs.open_read_write path = Except.ok file)
    (hbind : env.i2c_set_slave_address file.fd addr = Except.ok ()) :
    ∃ d : I2CDevice, (I2CDevice.new fs env path addr).2 = Except.ok d ∧
      d.slave_address = addr ∧ d.devfile = file := by
  refine ⟨{ devfile := file, slave_address := addr }, ?_, rfl, rfl⟩
  unfold I2CDevice.new
  rw [hopen]
  simp only [I2CDevice.set_slave_address, I2CDevice.as_raw_fd, hbind]

/-- Witness for C1 at the always-succeeding oracles, path "/dev/i2c-1",
address 0x50. -/
theorem new_ok_records_address_witness :
    ∃ d : I2CDevice, (I2CDevice.new okFs okFfi "/dev/i2c-1" 80).2 = Except.ok d ∧
      d.slave_address = 80 ∧ d.devfile = { fd := 3 } :=
  new_ok_records_address okFs okFfi "/dev/i2c-1" 80 { fd := 3 } rfl rfl

/-- C2: construction fails with the I/O category exactly when opening
the path fails; when open succeeds but the address bind fails,
construction fails with the distinct kernel (nix) category, wrapping the
kernel's error, and no handle is returned. -/
theorem new_error_category_split (fs : Fs) (env : Ffi) (path : String) (addr : Nat) :
    ((∃ e, (I2CDevice.new fs env path addr).2 =
        Except.error (I2CDeviceOpenError.IOError e)) ↔
      (∃ e, fs.open_read_write path = Except.error e)) ∧
    (∀ file e, fs.open_read_write path = Except.ok file →
      env.i2c_set_slave_address file.fd addr = Except.error e →
      (I2CDevice.new fs env path addr).2 =
        Except.error (I2CDeviceOpenError.NixError e)) := by
  constructor
  · cases h : fs.open_read_write path with
    | error e =>
      constructor
      · intro _
        exact ⟨e, rfl⟩
      · intro _
        refine ⟨e, ?_⟩
        unfold I2CDevice.new
        rw [h]
    | ok file =>
      constructor
      · rintro ⟨e, he⟩
        exfalso
        unfold I2CDevice.new at he
        rw [h] at he
        simp only [I2CDevice.set_slave_address, I2CDevice.as_raw_fd] at he
        cases hb : env.i2c_set_slave_address file.fd addr with
        | error e2 =>
          rw [hb] at he
          simp at he
        | ok u =>
          rw [hb] at he
          simp at he
      · rintro ⟨e, he⟩
        exact Except.noConfusion he
  · intro file e hopen hbind
    unfold I2CDevice.new
    rw [hopen]
    simp only [I2CDevice.set_slave_address, I2CDevice.as_raw_fd, hbind]

/-- Witness for C2: open succeeds (fd 3) but the bind ioctl rejects with
errno 22, so construction fails with the nix category. -/
theorem new_error_category_split_witness :
    (I2CDevice.new okFs failFfi "/dev/i2c-1" 80).2 =
      Except.error (I2CDeviceOpenError.NixError { errno := 22 }) :=
  (new_error_category_split okFs failFfi "/dev/i2c-1" 80).2
    { fd := 3 } { errno := 22 } rfl rfl

/-- C3: `set_slave_address` records the new address exactly when the
bind ioctl succeeds; when it fails the nix error is propagated verbatim
and the handle, in particular its previously recorded address, is left
unchanged. -/
theorem set_slave_address_state (env : Ffi) (d : I2CDevice) (addr : Nat) :
    (env.i2c_set_slave_address d.as_raw_fd addr = Except.ok () →
      (d.set_slave_address env addr).2 =
        ({ d with slave_address := addr }, Except.ok ())) ∧
    (∀ e, env.i2c_set_slave_address d.as_raw_fd addr = Except.error e →
      (d.set_slave_address env addr).2 = (d, Except.error e)) := by
  constructor
  · intro h
    unfold I2CDevice.set_slave_address
    rw [h]
  · intro e h
    unfold I2CDevice.set_slave_address
    rw [h]

/-- Witness for C3: against the rejecting ioctl layer, a rebind of the
handle bound to 0x50 fails with errno 22 and leaves the handle intact. -/
theorem set_slave_address_state_witness :
    (dev50.set_slave_address failFfi 16).2 = (dev50, Except.error { errno := 22 }) :=
  (set_slave_address_state failFfi dev50 16).2 { errno := 22 } rfl

/-- C4: each SMBus operation of `impl I2CSMBus for I2CDevice` performs
exactly one call of its corresponding ffi primitive on the handle's raw
fd (a singleton trace), leaves the handle as is, and returns the
primitive's result or error unmodified — no retry, no local validation,
no translation. -/
theorem smbus_single_transaction (env : Ffi) (d : I2CDevice) (bit : Bool)
    (value : Nat) (register : Nat) (word : Nat) (values : List Nat) :
    d.smbus_write_quick env bit =
      ([FfiCall.write_quick d.as_raw_fd bit], d,
        env.i2c_smbus_write_quick d.as_raw_fd bit) ∧
    d.smbus_read_byte env =
      ([FfiCall.read_byte d.as_raw_fd], d,
        env.i2c_smbus_read_byte d.as_raw_fd) ∧
    d.smbus_write_byte env value =
      ([FfiCall.write_byte d.as_raw_fd value], d,
        env.i2c_smbus_write_byte d.as_raw_fd value) ∧
    d.smbus_read_byte_data env register =
      ([FfiCall.read_byte_data d.as_raw_fd register], d,
        env.i2c_smbus_read_byte_data d.as_raw_fd register) ∧
    d.smbus_write_byte_data env register value =
      ([FfiCall.write_byte_data d.as_raw_fd register value], d,
        env.i2c_smbus_write_byte_data d.as_raw_fd register value) ∧
    d.smbus_read_word_data env register =
      ([FfiCall.read_word_data d.as_raw_fd register], d,
        env.i2c_smbus_read_word_data d.as_raw_fd register) ∧
    d.smbus_write_word_data env register word =
      ([FfiCall.write_word_data d.as_raw_fd register word], d,
        env.i2c_smbus_write_word_data d.as_raw_fd register word) ∧
    d.smbus_process_word env register word =
      ([FfiCall.process_call d.as_raw_fd register word], d,
        env.i2c_smbus_process_call d.as_raw_fd register word) ∧
    d.smbus_read_block_data env register =
      ([FfiCall.read_block_data d.as_raw_fd register], d,
        env.i2c_smbus_read_block_data d.as_raw_fd register) ∧
    d.smbus_write_block_data env register values =
      ([FfiCall.write_block_data d.as_raw_fd register values], d,
        env.i2c_smbus_write_block_data d.as_raw_fd register values) ∧
    d.smbus_process_block env register values =
      ([FfiCall.write_i2c_block_data d.as_raw_fd register values], d,
        env.i2c_smbus_write_i2c_block_data d.as_raw_fd register values) :=
  ⟨rfl, rfl, rfl, rfl, rfl, rfl, rfl, rfl, rfl, rfl, rfl⟩

/-- Helper: an `Except` value equal to an error is not any success. -/
theorem error_not_ok {α : Type} {x : Except NixError α} {e : NixError}
    (h : x = Except.error e) : ∀ v, x ≠ Except.ok v :=
  fun _ hv => Except.noConfusion (h ▸ hv)

/-- C5: every SMBus operation surfaces a primitive failure as that very
nix (kernel-transaction) error — the result type after construction
carries only `NixError`, never the construction-time I/O category — and
no failure is downgraded to a default or zero value: on a failing
primitive the operation never returns `Except.ok`. -/
theorem smbus_errors_explicit (env : Ffi) (d : I2CDevice) (bit : Bool)
    (value : Nat) (register : Nat) (word : Nat) (values : List Nat) (e : NixError) :
    (env.i2c_smbus_write_quick d.as_raw_fd bit = Except.error e →
      (d.smbus_write_quick env bit).2.2 = Except.error e ∧
        ∀ v, (d.smbus_write_quick env bit).2.2 ≠ Except.ok v) ∧
    (env.i2c_smbus_read_byte d.as_raw_fd = Except.error e →
      (d.smbus_read_byte env).2.2 = Except.error e ∧
        ∀ v, (d.smbus_read_byte env).2.2 ≠ Except.ok v) ∧
    (env.i2c_smbus_write_byte d.as_raw_fd value = Except.error e →
      (d.smbus_write_byte env value).2.2 = Except.error e ∧
        ∀ v, (d.smbus_write_byte env value).2.2 ≠ Except.ok v) ∧
    (env.i2c_smbus_read_byte_data d.as_raw_fd register = Except.error e →
      (d.smbus_read_byte_data env register).2.2 = Except.error e ∧
        ∀ v, (d.smbus_read_byte_data env register).2.2 ≠ Except.ok v) ∧
    (env.i2c_smbus_write_byte_data d.as_raw_fd register value = Except.error e →
      (d.smbus_write_byte_data env register value).2.2 = Except.error e ∧
        ∀ v, (d.smbus_write_byte_data env register value).2.2 ≠ Except.ok v) ∧
    (env.i2c_smbus_read_word_data d.as_raw_fd register = Except.error e →
      (d.smbus_read_word_data env register).2.2 = Except.error e ∧
        ∀ v, (d.smbus_read_word_data env register).2.2 ≠ Except.ok v) ∧
    (env.i2c_smbus_write_word_data d.as_raw_fd register word = Except.error e →
      (d.smbus_write_word_data env register word).2.2 = Except.error e ∧
        ∀ v, (d.smbus_write_word_data env register word).2.2 ≠ Except.ok v) ∧
    (env.i2c_smbus_process_call d.as_raw_fd register word = Except.error e →
      (d.smbus_process_word env register word).2.2 = Except.error e ∧
        ∀ v, (d.smbus_process_word env register word).2.2 ≠ Except.ok v) ∧
    (env.i2c_smbus_read_block_data d.as_raw_fd register = Except.error e →
      (d.smbus_read_block_data env register).2.2 = Except.error e ∧
        ∀ v, (d.smbus_read_block_data env register).2.2 ≠ Except.ok v) ∧
    (env.i2c_smbus_write_block_data d.as_raw_fd register values = Except.error e →
      (d.smbus_write_block_data env register values).2.2 = Except.error e ∧
        ∀ v, (d.smbus_write_block_data env register values).2.2 ≠ Except.ok v) ∧
    (env.i2c_smbus_write_i2c_block_data d.as_raw_fd register values = Except.error e →
      (d.smbus_process_block env register values).2.2 = Except.error e ∧
        ∀ v, (d.smbus_process_block env register values).2.2 ≠ Except.ok v) :=
  ⟨fun h => ⟨h, error_not_ok h⟩, fun h => ⟨h, error_not_ok h⟩,
    fun h => ⟨h, error_not_ok h⟩, fun h => ⟨h, error_not_ok h⟩,
    fun h => ⟨h, error_not_ok h⟩, fun h => ⟨h, error_not_ok h⟩,
    fun h => ⟨h, error_not_ok h⟩, fun h => ⟨h, error_not_ok h⟩,
    fun h => ⟨h, error_not_ok h⟩, fun h => ⟨h, error_not_ok h⟩,
    fun h => ⟨h, error_not_ok h⟩⟩

/-- Witness for C5: with every primitive failing with errno 5, a byte
read surfaces exactly that error. -/
theorem smbus_errors_explicit_witness :
    (dev50.smbus_read_byte failFfi).2.2 = Except.error { errno := 5 } :=
  ((smbus_errors_explicit failFfi dev50 true 0 0 0 [] { errno := 5 }).2.1 rfl).1

/-- C6: when the device reports a block of at most 32 bytes and the
primitive read succeeds, `smbus_read_block_data` returns a sequence of
exactly the reported length — the very bytes, with no padding and no
truncation. -/
theorem read_block_data_exact_length (env : Ffi) (d : I2CDevice) (register : Nat)
    (bytes : List Nat)
    (hdev : env.i2c_smbus_read_block_data d.as_raw_fd register = Except.ok bytes)
    (_hlen : bytes.length ≤ 32) :
    ∃ out : List Nat, (d.smbus_read_block_data env register).2.2 = Except.ok out ∧
      out.length = bytes.length ∧ out = bytes :=
  ⟨bytes, hdev, rfl, rfl⟩

/-- Witness for C6: a device reporting the three bytes [1, 2, 3] yields
exactly that sequence of length 3. -/
theorem read_block_data_exact_length_witness :
    ∃ out : List Nat, (dev50.smbus_read_block_data okFfi 0).2.2 = Except.ok out ∧
      out.length = ([1, 2, 3] : List Nat).length ∧ out = [1, 2, 3] :=
  read_block_data_exact_length okFfi dev50 0 [1, 2, 3] rfl (by decide)

/-- C7: for a 1- to 31-byte payload, `smbus_process_block` performs only
the write side: its trace is the single block-write primitive
`i2c_smbus_write_i2c_block_data` (no read primitive appears) and its
result is that primitive's, of unit payload — no read data is returned,
unlike a true SMBus block process call. -/
theorem process_block_write_only (env : Ffi) (d : I2CDevice) (register : Nat)
    (values : List Nat) (_hlo : 1 ≤ values.length) (_hhi : values.length ≤ 31) :
    (d.smbus_process_block env register values).1 =
      [FfiCall.write_i2c_block_data d.as_raw_fd register values] ∧
    (d.smbus_process_block env register values).2.2 =
      env.i2c_smbus_write_i2c_block_data d.as_raw_fd register values :=
  ⟨rfl, rfl⟩

/-- Witness for C7 at the one-byte payload [171]. -/
theorem process_block_write_only_witness :
    (dev50.smbus_process_block okFfi 0 [171]).1 =
      [FfiCall.write_i2c_block_data dev50.as_raw_fd 0 [171]] ∧
    (dev50.smbus_process_block okFfi 0 [171]).2.2 =
      okFfi.i2c_smbus_write_i2c_block_data dev50.as_raw_fd 0 [171] :=
  process_block_write_only okFfi dev50 0 [171] (by decide) (by decide)

/-- C8: the raw `read`, `write` and `flush` of the handle are pure
pass-throughs to the file resource: each performs exactly one file
primitive on the owned file and returns that primitive's count or error
unmodified, so a partial count is surfaced as is, with no retry to
completion. -/
theorem raw_io_pass_through (fs : Fs) (d : I2CDevice) (buf : List Nat) :
    (d.read fs buf).2.2 = fs.file_read d.devfile buf ∧
    (d.read fs buf).1 = [FfiCall.file_read d.as_raw_fd buf.length] ∧
    (d.write fs buf).2.2 = fs.file_write d.devfile buf ∧
    (d.write fs buf).1 = [FfiCall.file_write d.as_raw_fd buf] ∧
    (d.flush fs).2.2 = fs.file_flush d.devfile ∧
    (d.flush fs).1 = [FfiCall.file_flush d.as_raw_fd] :=
  ⟨rfl, rfl, rfl, rfl, rfl, rfl⟩

/-- C9: every public post-construction operation — raw read, write,
flush and all eleven SMBus operations — leaves the handle's recorded
slave address unchanged; `set_slave_address`, the sole mutator of that
field, is a private method and is not among them. -/
theorem public_ops_preserve_slave_address (fs : Fs) (env : Ffi) (d : I2CDevice)
    (buf : List Nat) (bit : Bool) (value : Nat) (register : Nat) (word : Nat)
    (values : List Nat) :
    ((d.read fs buf).2.1).slave_address = d.slave_address ∧
    ((d.write fs buf).2.1).slave_address = d.slave_address ∧
    ((d.flush fs).2.1).slave_address = d.slave_address ∧
    ((d.smbus_write_quick env bit).2.1).slave_address = d.slave_address ∧
    ((d.smbus_read_byte env).2.1).slave_address = d.slave_address ∧
    ((d.smbus_write_byte env value).2.1).slave_address = d.slave_address ∧
    ((d.smbus_read_byte_data env register).2.1).slave_address = d.slave_address ∧
    ((d.smbus_write_byte_data env register value).2.1).slave_address = d.slave_address ∧
    ((d.smbus_read_word_data env register).2.1).slave_address = d.slave_address ∧
    ((d.smbus_write_word_data env register word).2.1).slave_address = d.slave_address ∧
    ((d.smbus_process_word env register word).2.1).slave_address = d.slave_address ∧
    ((d.smbus_read_block_data env register).2.1).slave_address = d.slave_address ∧
    ((d.smbus_write_block_data env register values).2.1).slave_address = d.slave_address ∧
    ((d.smbus_process_block env register values).2.1).slave_address = d.slave_address :=
  ⟨rfl, rfl, rfl, rfl, rfl, rfl, rfl, rfl, rfl, rfl, rfl, rfl, rfl, rfl⟩

/-- C10: `smbus_write_block_data` and `smbus_process_block` perform no
local length check: every caller-supplied sequence, the empty one and
arbitrarily long ones included, is forwarded verbatim to the ffi
primitive — never rejected, clamped or truncated locally. -/
theorem block_writes_forward_verbatim (env : Ffi) (d : I2CDevice) (register : Nat)
    (values : List Nat) :
    (d.smbus_write_block_data env register values).2.2 =
      env.i2c_smbus_write_block_data d.as_raw_fd register values ∧
    (d.smbus_write_block_data env register values).1 =
      [FfiCall.write_block_data d.as_raw_fd register values] ∧
    (d.smbus_process_block env register values).2.2 =
      env.i2c_smbus_write_i2c_block_data d.as_raw_fd register values ∧
    (d.smbus_process_block env register values).1 =
      [FfiCall.write_i2c_block_data d.as_raw_fd register values] :=
  ⟨rfl, rfl, rfl, rfl⟩

end I2cdev
